import Mathlib

/-!
Shallow embedding of the N64 emulator core (`src/program.py`) and a
verification of the specification's claims about it.

Python `bytes`/`bytearray` values are modelled as `List Nat` (each entry a
byte); Python `int` addresses, counters and register values are modelled as
`Nat` (every value the program stores in them is non-negative), except
where the source computes a possibly negative intermediate (the cartridge
offset `address - 0x10000000`), which is kept as `Int` together with full
Python slice semantics (negative indices count from the end, out-of-range
indices clamp).
-/

namespace N64

/-- Normalisation of one Python slice index against a sequence length:
a negative index counts from the end (clamped below at 0), a non-negative
index is clamped above at the length. -/
def pyIdx (len : Nat) (i : Int) : Nat :=
  if i < 0 then ((len : Int) + i).toNat else min i.toNat len

/-- Python slice `l[i:j]` (step 1): the elements from the normalised start
index up to the normalised stop index. -/
def pySlice (l : List Nat) (i j : Int) : List Nat :=
  (l.take (pyIdx l.length j)).drop (pyIdx l.length i)

/-- Python slice assignment `l[i:j] = xs` (step 1): the normalised slice is
replaced by `xs`, whose length may differ (so the sequence can grow). -/
def pyAssign (l : List Nat) (i j : Int) (xs : List Nat) : List Nat :=
  let s := pyIdx l.length i
  let e := max s (pyIdx l.length j)
  l.take s ++ xs ++ l.drop e

/-- Python `int.from_bytes(l, 'big')`. -/
def fromBytesBE (l : List Nat) : Nat :=
  l.foldl (fun a b => a * 256 + b) 0

/-- Python `value.to_bytes(4, 'big')` for a 32-bit `value`. -/
def toBytesBE4 (v : Nat) : List Nat :=
  [v / 2 ^ 24 % 256, v / 2 ^ 16 % 256, v / 2 ^ 8 % 256, v % 256]

/-- The fixed physical base of the cartridge window used by
`Memory.read32` (`0x10000000` in the source). -/
def cartridgeBase : Nat := 0x10000000

/-- `Memory` from the source: RDRAM bytes plus the cartridge ROM bytes.
In the source `self.rom` only exists after `load_cartridge`; here it is a
field defaulting to the empty sequence. -/
structure Memory where
  ram : List Nat
  rom : List Nat := []
  deriving DecidableEq, Repr

/-- `Memory.__init__(size_bytes)`: zero-filled RDRAM of the given size. -/
def Memory.init (size_bytes : Nat) : Memory :=
  { ram := List.replicate size_bytes 0 }

/-- `Memory.load_cartridge`: stores the ROM bytes. -/
def Memory.load_cartridge (m : Memory) (rom_data : List Nat) : Memory :=
  { m with rom := rom_data }

/-- `Memory.read32`: RDRAM read when `address < len(ram)`, otherwise a ROM
read at offset `address - 0x10000000` (which may be negative, with Python
slice semantics). -/
def Memory.read32 (m : Memory) (address : Nat) : Nat :=
  if address < m.ram.length then
    fromBytesBE (pySlice m.ram (address : Int) ((address : Int) + 4))
  else
    let off : Int := (address : Int) - (cartridgeBase : Int)
    fromBytesBE (pySlice m.rom off (off + 4))

/-- `Memory.write32`: RDRAM slice assignment when `address < len(ram)`;
any other write is silently ignored (`pass` in the source). -/
def Memory.write32 (m : Memory) (address : Nat) (value : Nat) : Memory :=
  if address < m.ram.length then
    { m with ram := pyAssign m.ram (address : Int) ((address : Int) + 4) (toBytesBE4 value) }
  else m

/-- `Memory.reset`: RDRAM is zero-filled in place (same length), ROM kept. -/
def Memory.reset (m : Memory) : Memory :=
  { m with ram := List.replicate m.ram.length 0 }

/-- `VR4300CPU` state: 32 general registers, the program counter, and the
CP0 registers (a Python dict, modelled as an association list). -/
structure VR4300CPU where
  regs : List Nat
  pc : Nat
  cp0 : List (Nat × Nat)
  deriving DecidableEq, Repr

/-- `VR4300CPU.__init__`. -/
def VR4300CPU.init : VR4300CPU :=
  { regs := List.replicate 32 0, pc := 0, cp0 := [] }

/-- `VR4300CPU.reset`: registers zeroed, counter set to the entry vector
`0xA4000040`; the source does not touch `cp0` here. -/
def VR4300CPU.reset (c : VR4300CPU) : VR4300CPU :=
  { c with regs := List.replicate 32 0, pc := 0xA4000040 }

/-- `VR4300CPU._execute`: decode by the top 6 bits; the SPECIAL group and
the I-type group are stubs (no state change), opcodes 2 and 3 perform the
absolute jump `pc = (pc & 0xF0000000) | (target << 2)`. -/
def VR4300CPU._execute (c : VR4300CPU) (instr : Nat) : VR4300CPU :=
  let opcode := (instr >>> 26) &&& 0x3F
  if opcode = 0 then
    c
  else if opcode = 2 ∨ opcode = 3 then
    let target := instr &&& 0x03FFFFFF
    { c with pc := (c.pc &&& 0xF0000000) ||| (target <<< 2) }
  else
    c

/-- `VR4300CPU.execute_next_instruction`: fetch at `pc`, advance `pc` by 4,
then execute. -/
def VR4300CPU.execute_next_instruction (c : VR4300CPU) (m : Memory) : VR4300CPU :=
  let instr := m.read32 c.pc
  let c' := { c with pc := c.pc + 4 }
  c'._execute instr

/-- `VR4300CPU.get_state`: a copy of registers, counter and CP0 dict. -/
def VR4300CPU.get_state (c : VR4300CPU) : VR4300CPU :=
  { regs := c.regs, pc := c.pc, cp0 := c.cp0 }

/-- `VR4300CPU.set_state`: every field replaced from the captured state. -/
def VR4300CPU.set_state (_c : VR4300CPU) (s : VR4300CPU) : VR4300CPU :=
  { regs := s.regs, pc := s.pc, cp0 := s.cp0 }

/-- `RSP` state: its scalar register file. -/
structure RSP where
  regs : List Nat
  deriving DecidableEq, Repr

/-- `RSP.__init__`. -/
def RSP.init : RSP := { regs := List.replicate 32 0 }

/-- `RSP.reset`. -/
def RSP.reset (_r : RSP) : RSP := { regs := List.replicate 32 0 }

/-- `RSP.process_tasks`: a stub in the source (`pass`). -/
def RSP.process_tasks (r : RSP) : RSP := r

/-- `RSP.get_state`. -/
def RSP.get_state (r : RSP) : List Nat := r.regs

/-- `RSP.set_state`. -/
def RSP.set_state (_r : RSP) (regs : List Nat) : RSP := { regs := regs }

/-- `RDP` state: the framebuffer bytes. -/
structure RDP where
  framebuffer : List Nat
  deriving DecidableEq, Repr

/-- `RDP.__init__`: a 640*480*4-byte RGBA buffer. -/
def RDP.init : RDP := { framebuffer := List.replicate (640 * 480 * 4) 0 }

/-- `RDP.reset`: the framebuffer is replaced by a zero buffer of the same
length. -/
def RDP.reset (r : RDP) : RDP :=
  { framebuffer := List.replicate r.framebuffer.length 0 }

/-- `RDP.render_if_ready`: a stub in the source (`pass`). -/
def RDP.render_if_ready (r : RDP) : RDP := r

/-- `RDP.get_state`: the framebuffer bytes. -/
def RDP.get_state (r : RDP) : List Nat := r.framebuffer

/-- `RDP.set_state`: `if fb:` skips a missing or empty buffer, otherwise
the framebuffer contents are replaced wholesale. -/
def RDP.set_state (r : RDP) (fb : List Nat) : RDP :=
  if fb = [] then r else { framebuffer := fb }

/-- `AudioSystem` state: the generated sample buffer. -/
structure AudioSystem where
  audio_buffer : List Nat
  deriving DecidableEq, Repr

/-- `AudioSystem.__init__`. -/
def AudioSystem.init : AudioSystem := { audio_buffer := [] }

/-- `AudioSystem.reset`. -/
def AudioSystem.reset (_a : AudioSystem) : AudioSystem := { audio_buffer := [] }

/-- `AudioSystem.update_audio`: a stub in the source (`pass`). -/
def AudioSystem.update_audio (a : AudioSystem) : AudioSystem := a

/-- `AudioSystem.get_state`. -/
def AudioSystem.get_state (a : AudioSystem) : List Nat := a.audio_buffer

/-- `AudioSystem.set_state`. -/
def AudioSystem.set_state (_a : AudioSystem) (buf : List Nat) : AudioSystem :=
  { audio_buffer := buf }

/-- `Controller` state: buttons bitmask, the two signed stick axes, and the
connection flag. -/
structure Controller where
  buttons : Nat
  joystick_x : Int
  joystick_y : Int
  connected : Bool
  deriving DecidableEq, Repr

/-- `Controller.__init__`. -/
def Controller.init : Controller :=
  { buttons := 0, joystick_x := 0, joystick_y := 0, connected := true }

/-- `Controller.get_state`: the dict `{buttons, x, y}` (the connection flag
is not captured). -/
def Controller.get_state (c : Controller) : Nat × Int × Int :=
  (c.buttons, c.joystick_x, c.joystick_y)

/-- `InputManager` state: the list of controllers. -/
structure InputManager where
  controllers : List Controller
  deriving DecidableEq, Repr

/-- `InputManager.__init__`. -/
def InputManager.init (num_controllers : Nat := 4) : InputManager :=
  { controllers := List.replicate num_controllers Controller.init }

/-- `InputManager.poll_inputs`: a stub in the source (`pass`). -/
def InputManager.poll_inputs (im : InputManager) : InputManager := im

/-- `InputManager.get_state`: every controller's captured state. -/
def InputManager.get_state (im : InputManager) : List (Nat × Int × Int) :=
  im.controllers.map Controller.get_state

/-- `InputManager.set_state`: a stub in the source (`pass`) — controller
state is deliberately not restored. -/
def InputManager.set_state (im : InputManager) (_s : List (Nat × Int × Int)) : InputManager :=
  im

/-- The snapshot dict assembled by `N64Emulator.save_state` (the pickle
file round-trip is modelled as passing this value directly). -/
structure Snapshot where
  cpu : VR4300CPU
  rsp : List Nat
  rdp : List Nat
  audio : List Nat
  memory : List Nat
  controllers : List (Nat × Int × Int)
  deriving DecidableEq, Repr

/-- `N64Emulator` aggregate state. -/
structure N64Emulator where
  memory : Memory
  cpu : VR4300CPU
  rsp : RSP
  rdp : RDP
  audio : AudioSystem
  input : InputManager
  running : Bool
  paused : Bool
  deriving DecidableEq, Repr

/-- `N64Emulator.__init__`: 8 MB RDRAM and freshly initialised components. -/
def N64Emulator.init : N64Emulator :=
  { memory := Memory.init (8 * 1024 * 1024)
    cpu := VR4300CPU.init
    rsp := RSP.init
    rdp := RDP.init
    audio := AudioSystem.init
    input := InputManager.init 4
    running := false
    paused := false }

/-- `N64Emulator.reset`: resets CPU, RSP, RDP and audio; the source
deliberately does not reset `memory` (its comment: memory might not be
fully reset, to preserve the loaded ROM). -/
def N64Emulator.reset (em : N64Emulator) : N64Emulator :=
  { em with
    cpu := em.cpu.reset
    rsp := em.rsp.reset
    rdp := em.rdp.reset
    audio := em.audio.reset }

/-- The body of the `while self.running` loop in `N64Emulator.start` (one
macro-step when not paused): CPU instruction, RSP poll, RDP poll, input
poll, audio update. -/
def N64Emulator.loop_body (em : N64Emulator) : N64Emulator :=
  { em with
    cpu := em.cpu.execute_next_instruction em.memory
    rsp := em.rsp.process_tasks
    rdp := em.rdp.render_if_ready
    input := em.input.poll_inputs
    audio := em.audio.update_audio }

/-- The sequence of machine states produced by the next `n` macro-steps. -/
def N64Emulator.trace (em : N64Emulator) : Nat → List N64Emulator
  | 0 => []
  | n + 1 =>
    let em' := em.loop_body
    em' :: em'.trace n

/-- `N64Emulator.save_state`: gathers every component's captured state plus
a copy of RAM into the snapshot structure. -/
def N64Emulator.save_state (em : N64Emulator) : Snapshot :=
  { cpu := em.cpu.get_state
    rsp := em.rsp.get_state
    rdp := em.rdp.get_state
    audio := em.audio.get_state
    memory := em.memory.ram
    controllers := em.input.get_state }

/-- `N64Emulator.load_state`: restores each component from the snapshot in
order, with no validation of any kind; RAM contents are replaced wholesale. -/
def N64Emulator.load_state (em : N64Emulator) (state : Snapshot) : N64Emulator :=
  { em with
    cpu := em.cpu.set_state state.cpu
    rsp := em.rsp.set_state state.rsp
    rdp := em.rdp.set_state state.rdp
    audio := em.audio.set_state state.audio
    memory := { em.memory with ram := state.memory }
    input := em.input.set_state state.controllers }

/-- `N64Emulator.apply_cheat`: a direct `write32` into memory, with no
range validation. -/
def N64Emulator.apply_cheat (em : N64Emulator) (address value : Nat) : N64Emulator :=
  { em with memory := em.memory.write32 address value }

/-- A memory used as concrete input for the round-trip witness. -/
def memC2 : Memory := { ram := List.replicate 8 0, rom := [] }

/-- A memory with an empty RAM and a 5-byte ROM, used as concrete input
for the ROM-read witness. -/
def memC8 : Memory := { ram := [], rom := [1, 2, 3, 4, 5] }

/-- A 4-byte memory used as concrete input for the end-of-RAM write
witness. -/
def memC10 : Memory := { ram := [0, 0, 0, 0], rom := [] }

/-- A memory with a loaded ROM, used as concrete input for the
out-of-range access theorem. -/
def memC5 : Memory := { ram := List.replicate 8 0, rom := [1, 2, 3, 4] }

/-- An 8-byte memory with distinct byte values, used as concrete input for
the misaligned-access theorem. -/
def memC9 : Memory :=
  { ram := [0x11, 0x22, 0x33, 0x44, 0x55, 0x66, 0x77, 0x88], rom := [] }

/-- A small machine used as concrete input for the cheat witness. -/
def emC6 : N64Emulator :=
  { memory := { ram := List.replicate 8 0, rom := [1, 2, 3, 4] }
    cpu := VR4300CPU.init
    rsp := RSP.init
    rdp := { framebuffer := [0, 0, 0, 0] }
    audio := AudioSystem.init
    input := InputManager.init 1
    running := false
    paused := false }

/-- A small machine with non-zero RAM contents, used as concrete input for
the reset counterexample. -/
def emC7 : N64Emulator :=
  { memory := { ram := [1, 0, 0, 0], rom := [9] }
    cpu := VR4300CPU.init
    rsp := RSP.init
    rdp := { framebuffer := [] }
    audio := AudioSystem.init
    input := InputManager.init 1
    running := false
    paused := false }

/-- A memory whose RAM is `2^28` bytes long and ends in the encoding of an
absolute-jump instruction (`0x08000000`, opcode 2, target 0), used as
concrete input for the jump counterexample. -/
def memC1 : Memory := { ram := List.replicate (2 ^ 28 - 4) 0 ++ [8, 0, 0, 0], rom := [] }

/-- A processor about to fetch the jump at the end of `memC1`'s RAM: its
counter `0x0FFFFFFC` is 4 below a `0x10000000` boundary. -/
def cpuC1 : VR4300CPU := { regs := List.replicate 32 0, pc := 2 ^ 28 - 4, cp0 := [] }

/-- A 4-byte memory holding one jump instruction at address 0, used as
concrete input for the jump witness. -/
def memC1w : Memory := { ram := [8, 0, 0, 0], rom := [] }

/-- A processor with counter 0, used as concrete input for the jump
witness. -/
def cpuC1w : VR4300CPU := { regs := List.replicate 32 0, pc := 0, cp0 := [] }

lemma pyIdx_natCast (len n : Nat) : pyIdx len (n : Int) = min n len := by
  unfold pyIdx
  rw [if_neg (by exact not_lt.mpr (Int.ofNat_nonneg n))]
  simp

lemma natCast_add_four (a : Nat) : (a : Int) + 4 = ((a + 4 : Nat) : Int) := by
  push_cast
  ring

lemma pySlice_natCast (l : List Nat) (a b : Nat) :
    pySlice l (a : Int) (b : Int) = (l.take (min b l.length)).drop (min a l.length) := by
  unfold pySlice
  rw [pyIdx_natCast, pyIdx_natCast]

lemma pyAssign_natCast (l xs : List Nat) (a b : Nat) :
    pyAssign l (a : Int) (b : Int) xs =
      l.take (min a l.length) ++ xs ++ l.drop (max (min a l.length) (min b l.length)) := by
  unfold pyAssign
  rw [pyIdx_natCast, pyIdx_natCast]

lemma Memory.read32_ram (m : Memory) (a : Nat) (h : a < m.ram.length) :
    m.read32 a = fromBytesBE ((m.ram.take (min (a + 4) m.ram.length)).drop a) := by
  unfold Memory.read32
  rw [if_pos h, natCast_add_four, pySlice_natCast, Nat.min_eq_left h.le]

lemma Memory.write32_ram_eq (m : Memory) (a v : Nat) (h : a < m.ram.length) :
    (m.write32 a v).ram =
      m.ram.take a ++ toBytesBE4 v ++ m.ram.drop (min (a + 4) m.ram.length) := by
  unfold Memory.write32
  rw [if_pos h, natCast_add_four, pyAssign_natCast, Nat.min_eq_left h.le,
    Nat.max_eq_right (le_min (by omega) h.le)]

lemma Memory.write32_rom_eq (m : Memory) (a v : Nat) : (m.write32 a v).rom = m.rom := by
  unfold Memory.write32
  split <;> rfl

lemma toBytesBE4_length (v : Nat) : (toBytesBE4 v).length = 4 := rfl

lemma fromBytesBE_toBytesBE4 (v : Nat) (hv : v < 2 ^ 32) :
    fromBytesBE (toBytesBE4 v) = v := by
  simp only [fromBytesBE, toBytesBE4, List.foldl]
  omega

lemma take_append_drop_mid (l bs rest : List Nat) (a : Nat) (hl : (l.take a).length = a)
    (hbs : bs.length = 4) : ((l.take a ++ (bs ++ rest)).take (a + 4)).drop a = bs := by
  rw [List.take_append_eq_append_take, List.take_take, Nat.min_comm,
    Nat.min_eq_left (by omega), hl, Nat.add_sub_cancel_left, ← hbs, List.take_left]
  exact List.drop_left' hl

lemma Memory.write32_ram_length (m : Memory) (a v : Nat) (h : a < m.ram.length) :
    (m.write32 a v).ram.length = a + 4 + (m.ram.length - min (a + 4) m.ram.length) := by
  rw [Memory.write32_ram_eq m a v h]
  simp [List.length_take, List.length_drop, toBytesBE4_length, Nat.min_eq_left h.le]
  omega

/-- C2: for every address `a` that is a multiple of 4 with `a < ramSize`
and every 32-bit word `v`, `write32 a v` followed by `read32 a` returns
`v`. -/
theorem C2_write_read (m : Memory) (a v : Nat) (_ha4 : a % 4 = 0) (ha : a < m.ram.length)
    (hv : v < 2 ^ 32) : (m.write32 a v).read32 a = v := by
  have hlen := Memory.write32_ram_length m a v ha
  have ha' : a < (m.write32 a v).ram.length := by omega
  rw [Memory.read32_ram _ a ha', Nat.min_eq_left (by omega),
    Memory.write32_ram_eq m a v ha, List.append_assoc,
    take_append_drop_mid m.ram (toBytesBE4 v) _ a
      (by rw [List.length_take]; omega) (toBytesBE4_length v),
    fromBytesBE_toBytesBE4 v hv]

/-- Witness for C2 at a concrete memory, address and word. -/
theorem C2_write_read_witness : (memC2.write32 4 0xDEADBEEF).read32 4 = 0xDEADBEEF :=
  C2_write_read memC2 4 0xDEADBEEF (by decide) (by decide) (by decide)

lemma Memory.read32_rom (m : Memory) (a o : Nat) (hram : m.ram.length ≤ a)
    (hbase : cartridgeBase ≤ a) (ho : o = a - cartridgeBase) :
    m.read32 a = fromBytesBE ((m.rom.take (min (o + 4) m.rom.length)).drop (min o m.rom.length)) := by
  unfold Memory.read32
  rw [if_neg (not_lt.mpr hram)]
  have h1 : (a : Int) - (cartridgeBase : Int) = ((o : Nat) : Int) := by
    have : cartridgeBase ≤ a := hbase
    omega
  simp only [h1, natCast_add_four, pySlice_natCast]

/-- C8: a read inside the ROM window at offset `o = a - cartridgeBase`
with `o + 4 ≤ romSize` returns the big-endian word formed from the 4 ROM
bytes starting at `o`. -/
theorem C8_rom_read (m : Memory) (a o : Nat) (hram : m.ram.length ≤ cartridgeBase)
    (hbase : cartridgeBase ≤ a) (ho : o = a - cartridgeBase) (hlen : o + 4 ≤ m.rom.length) :
    m.read32 a = fromBytesBE ((m.rom.drop o).take 4) := by
  rw [Memory.read32_rom m a o (le_trans hram hbase) hbase ho,
    Nat.min_eq_left hlen, Nat.min_eq_left (by omega), List.drop_take (o + 4) o,
    Nat.add_sub_cancel_left]

/-- Witness for C8 at a concrete memory and ROM offset. -/
theorem C8_rom_read_witness :
    memC8.read32 0x10000001 = fromBytesBE ((memC8.rom.drop 1).take 4) :=
  C8_rom_read memC8 0x10000001 1 (by decide) (by decide) (by decide) (by decide)

/-- C10: a `write32` at an address in the last three bytes of RAM succeeds
and extends the RAM buffer to length `a + 4` with the full big-endian
encoding inserted, so that RAM is now longer than `ramSize` and every
address below `a + 4` decodes as RAM. -/
theorem C10_write_extends (m : Memory) (a v : Nat) (h1 : m.ram.length < a + 4)
    (h2 : a < m.ram.length) (_hv : v < 2 ^ 32) :
    (m.write32 a v).ram = m.ram.take a ++ toBytesBE4 v ∧
    (m.write32 a v).ram.length = a + 4 ∧
    m.ram.length < (m.write32 a v).ram.length ∧
    ∀ b : Nat, b < a + 4 → b < (m.write32 a v).ram.length := by
  have he : min (a + 4) m.ram.length = m.ram.length := by omega
  have hr := Memory.write32_ram_eq m a v h2
  rw [he, List.drop_length, List.append_nil] at hr
  have hlen : (m.write32 a v).ram.length = a + 4 := by
    rw [hr]
    simp [List.length_take, toBytesBE4_length]
    omega
  exact ⟨hr, hlen, by omega, fun b hb => by omega⟩

/-- Witness for C10 at a concrete memory and end-of-RAM address. -/
theorem C10_write_extends_witness :
    (memC10.write32 2 0xCAFEBABE).ram = memC10.ram.take 2 ++ toBytesBE4 0xCAFEBABE ∧
    (memC10.write32 2 0xCAFEBABE).ram.length = 2 + 4 ∧
    memC10.ram.length < (memC10.write32 2 0xCAFEBABE).ram.length ∧
    ∀ b : Nat, b < 2 + 4 → b < (memC10.write32 2 0xCAFEBABE).ram.length :=
  C10_write_extends memC10 2 0xCAFEBABE (by decide) (by decide) (by decide)

/-- C6 (code behaviour at the failing input): `apply_cheat` at any address
at or beyond the end of RAM is silently ignored — the machine is returned
completely unchanged and no failure of any kind is signalled. -/
theorem C6_cheat_silent (em : N64Emulator) (a v : Nat) (h : em.memory.ram.length ≤ a) :
    em.apply_cheat a v = em := by
  unfold N64Emulator.apply_cheat Memory.write32
  rw [if_neg (not_lt.mpr h)]

/-- Witness for C6 at a concrete machine and out-of-RAM address. -/
theorem C6_cheat_silent_witness : emC6.apply_cheat 0x10000000 0xDEADBEEF = emC6 :=
  C6_cheat_silent emC6 0x10000000 0xDEADBEEF (by decide)

/-- C5 (code behaviour at the failing input): an access at `0x20000000`,
outside both RAM and the ROM window, does not fail: the read silently
returns 0 and the write silently leaves the memory unchanged. -/
theorem C5_out_of_range_silent :
    memC5.read32 0x20000000 = 0 ∧ memC5.write32 0x20000000 0xDEADBEEF = memC5 := by
  decide

/-- C9 (code behaviour at the failing input): accesses at the misaligned
address 1 are accepted — the read returns the word at bytes 1..4 and the
write stores the encoding at bytes 1..4 — instead of being rejected. -/
theorem C9_misaligned_accepted :
    memC9.read32 1 = 0x22334455 ∧
    (memC9.write32 1 0x01020304).ram = [0x11, 1, 2, 3, 4, 0x66, 0x77, 0x88] := by
  decide

/-- Counterexample to C7: on a machine whose RAM holds a non-zero byte,
`reset()` leaves RAM unchanged (and thus non-zero), so the claimed
conjunction fails. -/
theorem C7_counterexample :
    ¬ (emC7.reset.cpu.pc = 0xA4000040 ∧ emC7.reset.cpu.regs = List.replicate 32 0 ∧
       emC7.reset.memory.ram = List.replicate emC7.reset.memory.ram.length 0 ∧
       emC7.reset.memory.rom = emC7.memory.rom) := by
  decide

/-- C7 (amended): after `reset()` the counter equals the entry vector
`0xA4000040`, all 32 general registers are zero, the RAM contents are left
unchanged (reset does not clear RAM), and the ROM is unchanged. -/
theorem C7_reset_amended (em : N64Emulator) :
    em.reset.cpu.pc = 0xA4000040 ∧ em.reset.cpu.regs = List.replicate 32 0 ∧
    em.reset.memory.ram = em.memory.ram ∧ em.reset.memory.rom = em.memory.rom :=
  ⟨rfl, rfl, rfl, rfl⟩

lemma load_save_id (em : N64Emulator) : em.load_state em.save_state = em := by
  simp only [N64Emulator.load_state, N64Emulator.save_state, VR4300CPU.set_state,
    VR4300CPU.get_state, RSP.set_state, RSP.get_state, RDP.set_state, RDP.get_state,
    AudioSystem.set_state, AudioSystem.get_state, InputManager.set_state]
  split <;> rfl

/-- C4: saving and immediately loading the same snapshot yields an
execution trace over the next `n` macro-steps identical to the trace with
neither call. -/
theorem C4_save_load_trace (em : N64Emulator) (n : Nat) :
    (em.load_state em.save_state).trace n = em.trace n := by
  rw [load_save_id]

/-- C3 (code behaviour): `load_state` performs no version or schema
validation of any kind — every snapshot is applied unconditionally to
every component. -/
theorem C3_load_applies_unconditionally (em : N64Emulator) (s : Snapshot) :
    (em.load_state s).cpu.regs = s.cpu.regs ∧ (em.load_state s).cpu.pc = s.cpu.pc ∧
    (em.load_state s).memory.ram = s.memory ∧ (em.load_state s).rsp.regs = s.rsp ∧
    (em.load_state s).audio.audio_buffer = s.audio :=
  ⟨rfl, rfl, rfl, rfl, rfl⟩

lemma execute_next_jump (c : VR4300CPU) (m : Memory)
    (h : (m.read32 c.pc >>> 26) &&& 0x3F = 2 ∨ (m.read32 c.pc >>> 26) &&& 0x3F = 3) :
    (c.execute_next_instruction m).pc =
      ((c.pc + 4) &&& 0xF0000000) ||| ((m.read32 c.pc &&& 0x03FFFFFF) <<< 2) := by
  have h0 : ¬ (m.read32 c.pc >>> 26) &&& 0x3F = 0 := by rcases h with h | h <;> omega
  simp only [VR4300CPU.execute_next_instruction, VR4300CPU._execute]
  rw [if_neg h0, if_pos h]

/-- C1 (amended): for a fetched absolute-jump instruction (opcode 2 or 3)
with raw target field `t`, the resulting counter is
`((p + 4) & 0xF0000000) | (t << 2)` where `p` is the counter at the moment
of the fetch — the mask is applied to the already incremented counter. -/
theorem C1_jump_new_pc (c : VR4300CPU) (m : Memory)
    (h : (m.read32 c.pc >>> 26) &&& 0x3F = 2 ∨ (m.read32 c.pc >>> 26) &&& 0x3F = 3) :
    (c.execute_next_instruction m).pc =
      ((c.pc + 4) &&& 0xF0000000) ||| ((m.read32 c.pc &&& 0x03FFFFFF) <<< 2) :=
  execute_next_jump c m h

/-- Witness for C1 at a concrete machine holding one jump instruction. -/
theorem C1_jump_new_pc_witness :
    (cpuC1w.execute_next_instruction memC1w).pc =
      ((cpuC1w.pc + 4) &&& 0xF0000000) ||| ((memC1w.read32 cpuC1w.pc &&& 0x03FFFFFF) <<< 2) :=
  C1_jump_new_pc cpuC1w memC1w (Or.inl (by decide))

/-- Counterexample to C1 as stated: fetching the jump at counter
`p = 0x0FFFFFFC` (so `p + 4` crosses the `0x10000000` boundary), the code
produces counter `0x10000000`, not `(p & 0xF0000000) | (t << 2) = 0`. -/
theorem C1_counterexample :
    (memC1.read32 cpuC1.pc >>> 26) &&& 0x3F = 2 ∧
    (cpuC1.execute_next_instruction memC1).pc ≠
      (cpuC1.pc &&& 0xF0000000) ||| ((memC1.read32 cpuC1.pc &&& 0x03FFFFFF) <<< 2) := by
  have hlen : memC1.ram.length = 2 ^ 28 := by
    rw [show memC1.ram = List.replicate (2 ^ 28 - 4) 0 ++ [8, 0, 0, 0] from rfl,
      List.length_append, List.length_replicate]
    decide
  have hpc : cpuC1.pc = 2 ^ 28 - 4 := rfl
  have hread : memC1.read32 cpuC1.pc = 0x08000000 := by
    rw [Memory.read32_ram memC1 cpuC1.pc (by rw [hlen, hpc]; omega), hlen, hpc,
      show 2 ^ 28 - 4 + 4 = 2 ^ 28 by omega, Nat.min_self,
      List.take_of_length_le (le_of_eq hlen),
      show memC1.ram = List.replicate (2 ^ 28 - 4) 0 ++ [8, 0, 0, 0] from rfl,
      List.drop_left' (by rw [List.length_replicate])]
    decide
  refine ⟨by rw [hread]; decide, ?_⟩
  rw [execute_next_jump cpuC1 memC1 (Or.inl (by rw [hread]; decide)), hread, hpc]
  decide

end N64
